import Mathlib

/-!
Verification of the node-statsd host-metrics collector (src/index.js).

The formatting and delta-tracking core of the script is embedded shallowly:
JS numbers are modelled as exact rationals. The readings this program
handles are finite decimal values (integers, rounded percentages), on
which exact rational arithmetic and decimal rendering agree with the
observable behaviour of JS number arithmetic and String(n) rendering.
The stateful samplers are modelled as explicit state-passing step
functions: each step takes the current stored state plus the reading the
telemetry provider delivers to the callback, and returns the list of
lines sent together with the new stored state. Code paths that throw are
modelled with Except.
-/

deriving instance DecidableEq for Except

namespace NodeStatsd

/-- A JS value flowing through the formatter: a string or a number. -/
inductive JsVal where
  | str (s : String)
  | num (q : ℚ)
deriving DecidableEq

/-- Left-pads a digit string with zeros up to width k. -/
def padZeros (s : String) (k : Nat) : String :=
  if k ≤ s.length then s else String.mk (List.replicate (k - s.length) '0') ++ s

/-- Smallest exponent k with d dividing 10 to the k, when one exists below
the search bound. Every denominator produced by the arithmetic of this
program divides a power of ten. -/
def natDecimalExp (d : Nat) : Option Nat :=
  (List.range 64).find? (fun k => 10 ^ k % d == 0)

/-- Decimal rendering of a rational, matching the JS rendering of the
finite-decimal numbers this program produces: integers render with no
point, other values render as the exact finite decimal expansion with no
trailing zeros. The fallback branch is never reached on such values. -/
def ratToJsString (q : ℚ) : String :=
  let sgn := if q < 0 then "-" else ""
  let n := q.num.natAbs
  let d := q.den
  match natDecimalExp d with
  | some k =>
    if k = 0 then sgn ++ toString n
    else
      let m := n * (10 ^ k / d)
      sgn ++ toString (m / 10 ^ k) ++ "." ++ padZeros (toString (m % 10 ^ k)) k
  | none => sgn ++ toString n ++ "/" ++ toString d

/-- String coercion applied by JS template literals. -/
def jsValToString : JsVal → String
  | .str s => s
  | .num q => ratToJsString q

/-- Replaces every occurrence of character a by b, as the JS
replace(regex-of-one-char, replacement) calls in the source do. -/
def replaceChar (s : String) (a b : Char) : String :=
  String.mk (s.data.map (fun c => if c = a then b else c))

/-- Removes the first occurrence of character c, as the JS
replace(string-pattern, empty) calls on mount and fs do: with a plain
string pattern JS replaces only the first occurrence. -/
def removeFirstChar : List Char → Char → List Char
  | [], _ => []
  | x :: xs, c => if x = c then xs else x :: removeFirstChar xs c

/-- String version of removeFirstChar. -/
def removeFirst (s : String) (c : Char) : String :=
  String.mk (removeFirstChar s.data c)

/-- Boolean membership of a character in a character list. -/
def hasChar : List Char → Char → Bool
  | [], _ => false
  | c :: cs, a => if c = a then true else hasChar cs a

/-- A tag object as built by the tag constructor in the source. -/
structure Tag where
  tag : JsVal
  value : JsVal
deriving DecidableEq

/-- The format helper inside the tag constructor: string inputs have
every dot and every space replaced by a dash; non-string inputs are
returned unchanged. -/
def format (input : JsVal) : JsVal :=
  match input with
  | .str s => .str (replaceChar (replaceChar s '.' '-') ' ' '-')
  | .num q => .num q

/-- The tag constructor: applies format to both the name and the value. -/
def tag (name value : JsVal) : Tag :=
  { tag := format name, value := format value }

/-- The tag marker constant from the source, used with the
statsd-opentsdb backend. -/
def pfx : String := "_t_"

/-- The allowed statsd metric type codes. -/
def allowedMetrics : List String := ["c", "s", "g", "ms"]

/-- Rendering of one tag object on the wire. -/
def renderTag (elem : Tag) : String :=
  pfx ++ jsValToString elem.tag ++ "." ++ jsValToString elem.value

/-- The statsdFormat function. The hostname read at process start is a
parameter. On success the result carries the emitted line together with
the content of the callers moreTags array after the call: the source
pushes the hostname tag onto the array it was handed, so the caller
observes the mutation. On a type outside the allowed set the function
throws before touching the array; the error message is abridged to its
fixed tail. -/
def statsdFormat (hostname metric : String) (value : JsVal) (type : String)
    (moreTags : List Tag) : Except String (String × List Tag) :=
  if allowedMetrics.contains type then
    let allTags := moreTags ++ [tag (.str "hostname") (.str hostname)]
    let tags := String.intercalate "." (allTags.map renderTag)
    .ok (metric ++ "." ++ tags ++ ":" ++ jsValToString value ++ "|" ++ type, allTags)
  else
    .error (type ++ " is not a statsd metric type")

/-- The shared sign idiom of the three delta trackers: a non-negative
delta is emitted as a string with an explicit plus, a negative one is
left as a plain number. -/
def signFormat (value : ℚ) : JsVal :=
  if 0 ≤ value then .str ("+" ++ ratToJsString value) else .num value

/-- JS Math.round: floor of the input plus one half. -/
def mathRound (q : ℚ) : ℚ := ((q + 1 / 2).floor : ℤ)

/-- Overwriting update of the association-list model of the disks
object. -/
def mapSet : List (String × ℚ) → String → ℚ → List (String × ℚ)
  | [], k, v => [(k, v)]
  | (k', v') :: rest, k, v =>
    if k' = k then (k, v) :: rest else (k', v') :: mapSet rest k v

/-- The value getDiskUsage emits for one device: the stored value minus
the current rounded reading when the mount is known, the plain current
reading otherwise. -/
def diskValue (disks : List (String × ℚ)) (mount : String) (calcv : ℚ) : JsVal :=
  match disks.lookup mount with
  | some stored => signFormat (stored - calcv)
  | none => .num calcv

/-- One filesystem entry delivered by the telemetry provider. -/
structure Device where
  type : String
  mount : String
  fs : String
  use : ℚ
deriving DecidableEq

/-- The body of the getDiskUsage forEach for a single device: rounds the
use percentage to three decimals, strips the first colon from the mount
and fs names, emits one line, and stores the rounded reading under the
mount key. -/
def getDiskUsageStep (hostname : String) (disks : List (String × ℚ)) (device : Device) :
    Except String (List String × List (String × ℚ)) := do
  let calcv := mathRound (device.use * 1000) / 1000
  let mount := removeFirst device.mount ':'
  let value := diskValue disks mount calcv
  let (line, _) ← statsdFormat hostname "disk_usage" value "g"
    [tag (.str "type") (.str device.type), tag (.str "mount") (.str mount),
     tag (.str "fs") (.str (removeFirst device.fs ':'))]
  pure ([line], mapSet disks mount calcv)

/-- One getDiskUsage tick: the forEach over the mounted devices,
threading the disks map left to right. -/
def getDiskUsageTick (hostname : String) (disks : List (String × ℚ)) :
    List Device → Except String (List String × List (String × ℚ))
  | [] => .ok ([], disks)
  | device :: rest => do
    let (lines, disks2) ← getDiskUsageStep hostname disks device
    let (more, disks3) ← getDiskUsageTick hostname disks2 rest
    pure (lines ++ more, disks3)

/-- One getLatency tick: on the sentinel value the baseline zero line is
sent first; then the provider callback sends the signed difference
between the measured value and the stored scalar, and stores the
measured value. -/
def getLatencyStep (hostname : String) (latency : ℚ) (ms : ℚ) :
    Except String (List String × ℚ) := do
  let head ←
    if latency = -1 then do
      let (line, _) ← statsdFormat hostname "latency" (.num 0) "g" []
      pure [line]
    else
      pure ([] : List String)
  let value := ms - latency
  let (line, _) ← statsdFormat hostname "latency" (signFormat value) "g" []
  pure (head ++ [line], ms)

/-- The battery reading delivered by the telemetry provider. -/
structure BatteryData where
  hasbattery : Bool
  percent : ℚ
deriving DecidableEq

/-- One getBattery tick. Without a battery nothing happens. On the
sentinel value the absolute percentage is sent and stored. Otherwise the
signed difference against the stored scalar is sent; this branch of the
source leaves the stored scalar untouched. -/
def getBatteryStep (hostname : String) (battery : ℚ) (data : BatteryData) :
    Except String (List String × ℚ) :=
  if !data.hasbattery then
    .ok ([], battery)
  else if battery = -1 then do
    let (line, _) ← statsdFormat hostname "battery" (.num data.percent) "g" []
    pure ([line], data.percent)
  else do
    let (line, _) ← statsdFormat hostname "battery" (signFormat (data.percent - battery)) "g" []
    pure ([line], battery)

/-- The mutable scalars and map the three delta trackers share. -/
structure TrackerState where
  latency : ℚ
  disks : List (String × ℚ)
  battery : ℚ
deriving DecidableEq

/-- The tracker state at process start. -/
def initState : TrackerState :=
  { latency := -1, disks := [], battery := -1 }

/-- The state part of the sendRaw resync tick: both scalars back to the
sentinel, the disks map emptied. -/
def sendRawReset (s : TrackerState) : TrackerState :=
  { s with battery := -1, latency := -1, disks := [] }

/-- The options object handed to the service registration call. -/
structure ServiceOptions where
  args : List String
  username : Option String
  password : Option String
deriving DecidableEq

/-- The four actions the CLI dispatch can take. -/
inductive CliAction where
  | add (opts : ServiceOptions)
  | remove
  | run
  | usage
deriving DecidableEq

/-- The process.argv dispatch at the bottom of the source. The argv list
includes the two leading interpreter and script entries. Reading an
index beyond the end of argv yields the JS undefined, modelled as
none. -/
def dispatch (argv : List String) : CliAction :=
  if argv.get? 2 = some "--add" ∧ 3 ≤ argv.length then
    .add { args := ["--run"],
           username := if 3 < argv.length then argv.get? 3 else none,
           password := if argv.length = 4 then argv.get? 4 else none }
  else if argv.get? 2 = some "--remove" then .remove
  else if argv.get? 2 = some "--run" then .run
  else .usage


/-- Helper: on an allowed type, statsdFormat returns the encoded line and
the extended tag array. -/
theorem statsdFormat_ok_eq (hostname metric : String) (value : JsVal) (type : String)
    (moreTags : List Tag) (h : allowedMetrics.contains type = true) :
    statsdFormat hostname metric value type moreTags =
      .ok (metric ++ "." ++
             String.intercalate "." ((moreTags ++ [tag (.str "hostname") (.str hostname)]).map renderTag) ++
             ":" ++ jsValToString value ++ "|" ++ type,
           moreTags ++ [tag (.str "hostname") (.str hostname)]) := by
  simp only [statsdFormat, h, if_true]

/-- Helper: on a type outside the allowed set, statsdFormat throws. -/
theorem statsdFormat_error_eq (hostname metric : String) (value : JsVal) (type : String)
    (moreTags : List Tag) (h : allowedMetrics.contains type = false) :
    statsdFormat hostname metric value type moreTags =
      .error (type ++ " is not a statsd metric type") := by
  simp only [statsdFormat, h, Bool.false_eq_true, if_false]

/-- Helper: the double character replacement of the tag formatter leaves
neither a dot nor a space in the result. -/
theorem sanitizeChars_no_forbidden (cs : List Char) :
    hasChar ((cs.map fun c => if c = '.' then '-' else c).map fun c => if c = ' ' then '-' else c) '.' = false ∧
    hasChar ((cs.map fun c => if c = '.' then '-' else c).map fun c => if c = ' ' then '-' else c) ' ' = false := by
  induction cs with
  | nil => exact ⟨rfl, rfl⟩
  | cons c cs ih =>
    obtain ⟨ih1, ih2⟩ := ih
    by_cases h1 : c = '.'
    · subst h1
      exact ⟨ih1, ih2⟩
    · by_cases h2 : c = ' '
      · subst h2
        exact ⟨ih1, ih2⟩
      · constructor
        · simpa only [List.map, if_neg h1, if_neg h2, hasChar] using ih1
        · simpa only [List.map, if_neg h1, if_neg h2, hasChar] using ih2

/-- C1: for every metric, value, allowed type and tag list, statsdFormat
returns the line metric dot tags colon value bar type, where the tags are
the given ones in call order followed by exactly one hostname tag
appended last, each rendered with the tag marker. The witness checks the
concrete scenario with hostname h1. -/
theorem statsdFormat_encodes_line (hostname metric : String) (value : JsVal) (type : String)
    (moreTags : List Tag) (h : allowedMetrics.contains type = true) :
    statsdFormat hostname metric value type moreTags =
      .ok (metric ++ "." ++
             String.intercalate "." ((moreTags ++ [tag (.str "hostname") (.str hostname)]).map renderTag) ++
             ":" ++ jsValToString value ++ "|" ++ type,
           moreTags ++ [tag (.str "hostname") (.str hostname)]) :=
  statsdFormat_ok_eq hostname metric value type moreTags h

theorem statsdFormat_encodes_line_witness :
    allowedMetrics.contains "c" = true ∧
    statsdFormat "h1" "cpu_usage" (.num 42) "c" [tag (.str "cpu") (.num 0)] =
      .ok ("cpu_usage._t_cpu.0._t_hostname.h1:42|c",
           [tag (.str "cpu") (.num 0), tag (.str "hostname") (.str "h1")]) := by
  refine ⟨by decide, ?_⟩
  rw [statsdFormat_encodes_line "h1" "cpu_usage" (.num 42) "c" [tag (.str "cpu") (.num 0)] (by decide)]
  with_unfolding_all decide

/-- C2: statsdFormat throws exactly on a type outside the set c, s, g,
ms, producing no line; on an allowed type it returns a line. -/
theorem statsdFormat_type_check (hostname metric : String) (value : JsVal) (type : String)
    (moreTags : List Tag) :
    (allowedMetrics.contains type = false →
       statsdFormat hostname metric value type moreTags =
         .error (type ++ " is not a statsd metric type")) ∧
    (allowedMetrics.contains type = true →
       ∃ out, statsdFormat hostname metric value type moreTags = .ok out) :=
  ⟨fun h => statsdFormat_error_eq hostname metric value type moreTags h,
   fun h => ⟨_, statsdFormat_ok_eq hostname metric value type moreTags h⟩⟩

theorem statsdFormat_type_check_witness :
    statsdFormat "h1" "m" (.num 1) "x" [] = .error ("x" ++ " is not a statsd metric type") ∧
    ∃ out, statsdFormat "h1" "m" (.num 1) "c" [] = .ok out :=
  ⟨(statsdFormat_type_check "h1" "m" (.num 1) "x" []).1 (by decide),
   (statsdFormat_type_check "h1" "m" (.num 1) "c" []).2 (by decide)⟩

/-- C3: evaluation of the disk tracker at the claimed scenario. The
mount slash is observed at 10 and then at 15; the source computes the
stored value minus the current one, so the second observation emits -5,
not the +5 the claim states. -/
theorem getDiskUsage_sign_flip :
    getDiskUsageStep "h1" [] { type := "ext4", mount := "/", fs := "devfs", use := 10 } =
      .ok (["disk_usage._t_type.ext4._t_mount./._t_fs.devfs._t_hostname.h1:10|g"], [("/", 10)]) ∧
    getDiskUsageStep "h1" [("/", 10)] { type := "ext4", mount := "/", fs := "devfs", use := 15 } =
      .ok (["disk_usage._t_type.ext4._t_mount./._t_fs.devfs._t_hostname.h1:-5|g"], [("/", 15)]) := by
  constructor <;> with_unfolding_all decide

/-- C4: evaluation of the latency tracker at a first observation. With
the scalar at its sentinel and a measured value of 10, the source emits
the baseline zero line and then a second line carrying +11: the delta is
computed against the sentinel -1 instead of being skipped, so the first
observation does not emit only the baseline. -/
theorem getLatency_first_observation_eval :
    getLatencyStep "h1" (-1) 10 =
      .ok (["latency._t_hostname.h1:0|g", "latency._t_hostname.h1:+11|g"], 10) := by
  with_unfolding_all decide

/-- C5: evaluation of the battery tracker at a subsequent observation.
With 50 stored and a new reading of 49 the delta line -1 is emitted but
the stored scalar remains 50: the source never updates it on this
branch, contradicting the claim that the stored value equals the new
absolute reading after every observation. -/
theorem getBattery_stale_baseline :
    getBatteryStep "h1" 50 { hasbattery := true, percent := 49 } =
      .ok (["battery._t_hostname.h1:-1|g"], 50) ∧ (50 : ℚ) ≠ 49 := by
  constructor <;> with_unfolding_all decide

/-- C6 counterexample: statsdFormat pushes the hostname tag onto the tag
array it is handed, so a second call on the array left by the first call
yields a different line: the encoder changes the meaning of its input
between calls. -/
theorem statsdFormat_mutates_input :
    statsdFormat "h1" "m" (.num 0) "c" [] =
      .ok ("m._t_hostname.h1:0|c", [tag (.str "hostname") (.str "h1")]) ∧
    statsdFormat "h1" "m" (.num 0) "c" [tag (.str "hostname") (.str "h1")] =
      .ok ("m._t_hostname.h1._t_hostname.h1:0|c",
           [tag (.str "hostname") (.str "h1"), tag (.str "hostname") (.str "h1")]) ∧
    ("m._t_hostname.h1:0|c" : String) ≠ "m._t_hostname.h1._t_hostname.h1:0|c" := by
  refine ⟨?_, ?_, ?_⟩ <;> with_unfolding_all decide

/-- C6 (amended): encoding the same metric, value, type and tag-list
value twice yields identical strings, since the encoder keeps no hidden
state of its own; but it mutates the passed tag array by appending the
hostname tag, so reusing the same array object across calls changes the
output. -/
theorem statsdFormat_value_deterministic (hostname metric : String) (value : JsVal) (type : String)
    (moreTags : List Tag) :
    statsdFormat hostname metric value type moreTags = statsdFormat hostname metric value type moreTags ∧
    (allowedMetrics.contains type = true →
      (statsdFormat hostname metric value type moreTags).map Prod.snd =
        .ok (moreTags ++ [tag (.str "hostname") (.str hostname)])) :=
  ⟨rfl, fun h => by rw [statsdFormat_ok_eq hostname metric value type moreTags h]; rfl⟩

theorem statsdFormat_value_deterministic_witness :
    statsdFormat "h1" "m" (.num 0) "c" [] = statsdFormat "h1" "m" (.num 0) "c" [] ∧
    (statsdFormat "h1" "m" (.num 0) "c" []).map Prod.snd =
      .ok [tag (.str "hostname") (.str "h1")] :=
  ⟨(statsdFormat_value_deterministic "h1" "m" (.num 0) "c" []).1,
   (statsdFormat_value_deterministic "h1" "m" (.num 0) "c" []).2 (by decide)⟩

/-- C7: the sendRaw resync tick resets the tracker state to the
process-start state: the disks map is emptied, both scalars return to
the sentinel, the next disk observation for any mount emits the plain
absolute value, the next battery observation emits the absolute
percentage, and the next latency tick behaves exactly as at process
start. -/
theorem sendRaw_resets_tracker (s : TrackerState) (hostname : String) (d : BatteryData)
    (mount : String) (calcv ms : ℚ) :
    sendRawReset s = initState ∧
    diskValue (sendRawReset s).disks mount calcv = .num calcv ∧
    (d.hasbattery = true →
      getBatteryStep hostname (sendRawReset s).battery d =
        (statsdFormat hostname "battery" (.num d.percent) "g" []).map (fun p => ([p.1], d.percent))) ∧
    getLatencyStep hostname (sendRawReset s).latency ms = getLatencyStep hostname initState.latency ms := by
  refine ⟨rfl, rfl, ?_, rfl⟩
  intro hb
  obtain ⟨hbv, p⟩ := d
  simp only at hb
  subst hb
  with_unfolding_all rfl

theorem sendRaw_resets_tracker_witness :
    sendRawReset ⟨7, [("/", 10)], 50⟩ = initState ∧
    diskValue (sendRawReset ⟨7, [("/", 10)], 50⟩).disks "/" 3 = .num 3 ∧
    getBatteryStep "h1" (sendRawReset ⟨7, [("/", 10)], 50⟩).battery ⟨true, 80⟩ =
      (statsdFormat "h1" "battery" (.num 80) "g" []).map (fun p => ([p.1], 80)) ∧
    getLatencyStep "h1" (sendRawReset ⟨7, [("/", 10)], 50⟩).latency 12 =
      getLatencyStep "h1" initState.latency 12 := by
  obtain ⟨h1, h2, h3, h4⟩ := sendRaw_resets_tracker ⟨7, [("/", 10)], 50⟩ "h1" ⟨true, 80⟩ "/" 3 12
  exact ⟨h1, h2, h3 rfl, h4⟩

/-- C8 counterexample: the tag constructor passes a numeric value
through unchanged, so a non-integer numeric tag value renders with a
dot, refuting the claim that sanitization applies to string and numeric
values alike. -/
theorem tag_numeric_unsanitized :
    tag (.str "x") (.num (3/2)) = { tag := .str "x", value := .num (3/2) } ∧
    jsValToString (tag (.str "x") (.num (3/2))).value = "1.5" ∧
    hasChar (jsValToString (tag (.str "x") (.num (3/2))).value).data '.' = true := by
  refine ⟨?_, ?_, ?_⟩ <;> with_unfolding_all decide

/-- C8 (amended): the tag constructor replaces every dot and every space
with a dash in string names and values, and the result of that
sanitization contains neither character; numeric inputs are passed
through unchanged, not sanitized. -/
theorem tag_sanitizes_strings (name : JsVal) (q : ℚ) (s : String) :
    (tag name (.num q)).value = .num q ∧
    (tag name (.str s)).value = .str (replaceChar (replaceChar s '.' '-') ' ' '-') ∧
    hasChar (replaceChar (replaceChar s '.' '-') ' ' '-').data '.' = false ∧
    hasChar (replaceChar (replaceChar s '.' '-') ' ' '-').data ' ' = false := by
  have h := sanitizeChars_no_forbidden s.data
  exact ⟨rfl, rfl, by simpa [replaceChar] using h.1, by simpa [replaceChar] using h.2⟩

/-- C9: evaluation of the CLI dispatch on add with a username and a
password. The source copies the password only when argv has exactly four
entries, which cannot hold when a password argument is present, and then
reads the out-of-range index four; so the registered options carry the
username but no password, contradicting the claim. -/
theorem dispatch_add_drops_password :
    dispatch ["node", "index.js", "--add", "alice", "hunter2"] =
      .add { args := ["--run"], username := some "alice", password := none } := by
  with_unfolding_all decide

/-- C10: when the provider reports no battery, the battery sampler emits
no line and leaves the stored scalar unchanged. -/
theorem getBattery_no_battery (hostname : String) (battery percent : ℚ) :
    getBatteryStep hostname battery { hasbattery := false, percent := percent } =
      .ok ([], battery) := rfl

end NodeStatsd
